import Mathlib

/-
Verification of the Alepha utility library against its specification.

The development shallowly embeds four source components:
  * src/Exception.h            -- the exception grade/tag lattice
  * src/string_algorithms.h    -- parseRange and its helpers
  * src/unnamed/part_000       -- the Console terminal helper
  * src/unnamed/part_001       -- the TableTest harness

Definitions come first, theorems afterwards.
-/

namespace Alepha

/- ===================================================================
   Part 1: the exception lattice of src/Exception.h

   The lattice consists of the six grade classes (Exception, Condition,
   Notification, Error, CriticalError, Violation) and, nested in each,
   an any_tagged_type class and a tagged_type<tag> class template.
   Caller-supplied C++ tag types are represented by natural numbers;
   distinct numbers stand for distinct C++ types.
   =================================================================== -/

/-- The six grade classes of Exception.h (file comment, lines 22 to 69). -/
inductive GradeName where
  | exception
  | condition
  | notification
  | error
  | criticalError
  | violation
deriving DecidableEq

/-- A class of the lattice: a plain grade class G, its nested
G::any_tagged_type, or its nested G::tagged_type<tag>.  An object thrown
through this system is represented by its most-derived lattice class;
the concrete leaf classes produced by build_exception add only bases
(such as MessageStorage) that are already in the lattice closure, so
they do not change any of the queries below. -/
inductive Cls where
  | grade (g : GradeName)
  | anyTagged (g : GradeName)
  | tagged (g : GradeName) (tag : Nat)
deriving DecidableEq

/-- The direct base classes of each lattice class, transcribed from the
base-clauses in Exception.h.  All of the inheritance is virtual, so the
reachability closure of this list is exactly what dynamic_cast sees:

  * Exception (line 112) has no bases;
  * each other grade G derives virtually from Exception, either directly
    (Condition line 168, Notification line 191) or through
    bases< Exception > (Error line 216, CriticalError line 239,
    Violation line 266); the additional virtual private
    ErrorBridgeInterface base of Error is outside the lattice and is
    never queried by the claims;
  * Exception::any_tagged_type (line 142) derives from grade_type,
    which is Exception;
  * G::any_tagged_type for the other grades (lines 178, 201, 227, 249,
    283) derives from bases< grade_type, Exception::any_tagged_type >;
  * Exception::tagged_type<Tag> (line 148) derives from grade_type and
    grade_type::any_tagged_type;
  * G::tagged_type<tag> for the other grades (lines 180, 203, 228, 251,
    284) derives from bases< grade_type::any_tagged_type,
    Exception::tagged_type<tag> >. -/
def directBases : Cls → List Cls
  | .grade .exception => []
  | .grade _ => [.grade .exception]
  | .anyTagged .exception => [.grade .exception]
  | .anyTagged g => [.grade g, .anyTagged .exception]
  | .tagged .exception _ => [.grade .exception, .anyTagged .exception]
  | .tagged g t => [.anyTagged g, .tagged .exception t]

/-- Reachability in the inheritance graph, with fuel.  The longest chain
of direct bases in the lattice is
G::tagged_type -> G::any_tagged_type -> G -> Exception, of length four,
so any fuel of at least five computes the full reflexive-transitive
closure; eight is used. -/
def isAFuel : Nat → Cls → Cls → Bool
  | 0, _, _ => false
  | fuel + 1, c, d => decide (c = d) || (directBases c).any (fun b => isAFuel fuel b d)

/-- Model of Exception::is_a< Target >() (Exception.h lines 135 to 140):
dynamic_cast< const Target * >( this ) is non-null exactly when the
most-derived class of the object is Target or (virtually, publicly)
derives from it. -/
def isA (c target : Cls) : Bool := isAFuel 8 c target

/-- Model of a C++ std::type_index value of the form
typeid( std::type_identity< Tag > ): it is injective in Tag. -/
inductive TypeIdx where
  | typeIdentity (tag : Nat)
deriving DecidableEq

/-- Model of the virtual tag() method.  Exception.h line 153 gives the
single final override, in Exception::tagged_type<Tag>:
it returns typeid( std::type_identity< Tag > ).  Every
G::tagged_type<tag> inherits that override, so an object of a tagged
class reports its tag and nothing else has a tag to report (in
any_tagged_type the method is pure virtual, line 146). -/
def tagMethod : Cls → Option TypeIdx
  | .tagged _ t => some (.typeIdentity t)
  | _ => none

/- ===================================================================
   Part 2: src/string_algorithms.h

   parseRange<T> is instantiated at T = Int; machine-integer overflow
   is immaterial for the claims, which are about small literals and
   branch structure.
   =================================================================== -/

/-- Possible failure modes of parseRange: the std::runtime_error thrown
at line 85 of string_algorithms.h with the text
"Expected an integer or a range.", or the bad_lexical_cast that
boost::lexical_cast raises on a malformed number. -/
inductive ParseErr where
  | rangeFormat
  | badLexicalCast
deriving DecidableEq

/-- Modelled from the spec: the body of
split( const std::string &s, char token ) is not under src/ (only its
declaration at string_algorithms.h line 76 and its call sites are), and
the spec describes the component only as string splitting.  It is
modelled as the standard split: the fields of the character list that
lie between occurrences of the delimiter, keeping empty fields, with
the empty input producing one empty field. -/
def splitChars (cs : List Char) (token : Char) : List (List Char) :=
  match cs with
  | [] => [[]]
  | c :: rest =>
      let r := splitChars rest token
      if c = token then [] :: r else (c :: r.headI) :: r.tail

/-- Modelled from the spec: string-level wrapper of splitChars; see the
comment there.  parseRange calls split( s, "-" ), whose second argument
is the delimiter dash. -/
def split (s : String) (token : Char) : List String :=
  (splitChars s.data token).map (fun cs => String.mk cs)

/-- Numeric value of a decimal digit character, none otherwise. -/
def digitVal (c : Char) : Option Nat :=
  if c.isDigit then some (c.toNat - 48) else none

/-- Accumulate decimal digits left to right; none on a non-digit. -/
def readDigits : List Char → Nat → Option Nat
  | [], acc => some acc
  | c :: rest, acc =>
      match digitVal c with
      | some d => readDigits rest (10 * acc + d)
      | none => none

/-- Value of a non-empty all-digit character list, none otherwise. -/
def digitsToNat (cs : List Char) : Option Nat :=
  if cs.isEmpty then none else readDigits cs 0

/-- Model of boost::lexical_cast< T >( s ) for an integral T (an
external library function): the whole string must be an optionally
signed decimal integer, otherwise the cast fails (bad_lexical_cast). -/
def lexicalCast (s : String) : Option Int :=
  match s.data with
  | '-' :: rest => (digitsToNat rest).map (fun n => -(n : Int))
  | '+' :: rest => (digitsToNat rest).map (fun n => (n : Int))
  | cs => (digitsToNat cs).map (fun n => (n : Int))

/-- Model of std::iota( begin( rv ), end( rv ), low ): every element of
rv is overwritten with low, low + 1, ... in order; only the length of
rv survives. -/
def iotaFill (low : Int) (rv : List Int) : List Int :=
  (List.range rv.length).map (fun i => low + i)

/-- Model of parseRange< T > (string_algorithms.h lines 79 to 98) at
T = Int, transcribed branch for branch:

  * tokens = split( s, dash );
  * if tokens is empty or has more than two entries, throw
    std::runtime_error( "Expected an integer or a range." );
  * if tokens.size() == 1 or tokens.at( 0 ).empty(), return the braced
    one-element vector { lexical_cast( s ) };
  * otherwise low = lexical_cast( tokens.at( 0 ) ) and, as written at
    line 93 of the source, high = lexical_cast( tokens.at( 0 ) ) as
    well (the source reads index 0 twice);
  * rv is declared as std::vector< T > rv{ high - low + 1 }, which
    brace-initialises a vector holding the single element
    high - low + 1;
  * std::iota then overwrites rv starting from low, and rv is
    returned. -/
def parseRange (s : String) : Except ParseErr (List Int) :=
  let tokens := split s '-'
  if tokens.length = 0 ∨ tokens.length > 2 then
    .error .rangeFormat
  else if tokens.length = 1 ∨ (tokens.getD 0 "").isEmpty then
    match lexicalCast s with
    | none => .error .badLexicalCast
    | some v => .ok [v]
  else
    match lexicalCast (tokens.getD 0 "") with
    | none => .error .badLexicalCast
    | some low =>
      match lexicalCast (tokens.getD 0 "") with
      | none => .error .badLexicalCast
      | some high => .ok (iotaFill low [high - low + 1])

/-- What the specification says parseRange computes on "a-b" with
a <= b: the inclusive arithmetic sequence from a to b.  This definition
follows the words of the spec, for comparison with parseRange above. -/
def specRange (low high : Int) : List Int :=
  (List.range (high - low + 1).toNat).map (fun i => low + i)

/- ===================================================================
   Part 3: the Console of src/unnamed/part_000
   =================================================================== -/

/-- The pair returned by Console::getScreenSize (struct winsize rows
and columns; both are unsigned shorts, modelled as Nat). -/
structure ScreenSize where
  rows : Nat
  columns : Nat
deriving DecidableEq

/-- The observable state of the file descriptor interrogated by
getScreenSize: whether isatty holds, and what ioctl( TIOCGWINSZ )
reports -- none models a -1 return code, some ws models success with
the filled winsize. -/
structure TtyState where
  isTty : Bool
  winSize : Option ScreenSize
deriving DecidableEq

/-- The try-block body of Console::getScreenSize (part_000 lines 441
to 451): throw UnknownScreenError when the descriptor is not a tty,
when the ioctl fails, or when the reported column count is zero;
otherwise return { ws_row, ws_col }.  UnknownScreenError is the only
exception the body can raise, modelled as the Unit error. -/
def getScreenSizeBody (t : TtyState) : Except Unit ScreenSize :=
  if t.isTty = false then .error ()
  else
    match t.winSize with
    | none => .error ()
    | some ws => if ws.columns = 0 then .error () else .ok ws

/-- Console::getScreenSize with its function-level try/catch (part_000
line 452): every UnknownScreenError from the body is caught and turned
into the fallback { 24, 80 }, so the function is total. -/
def getScreenSize (t : TtyState) : ScreenSize :=
  match getScreenSizeBody t with
  | .error _ => ⟨24, 80⟩
  | .ok ws => ws

/-- The ConsoleMode enumeration of part_000 line 221. -/
inductive ConsoleMode where
  | cooked
  | raw
  | noblock
deriving DecidableEq

/-- The state of Console::Impl relevant to the terminal mode (part_000
lines 227 to 241): the termios settings currently installed on the file
descriptor (abstracted to a Nat, since their contents are never
inspected by the claims), the current mode (default cooked), and the
stack of saved (termios, mode) pairs, top first. -/
structure ConsoleState where
  fdSettings : Nat
  mode : ConsoleMode
  modeStack : List (Nat × ConsoleMode)
deriving DecidableEq

/-- Console::getMode (part_000 lines 243 to 247). -/
def getMode (s : ConsoleState) : ConsoleMode := s.mode

/-- Model of setRawModeWithMin (part_000 lines 304 to 322) in the case
where tcgetattr and tcsetattr succeed: it reads the current settings
with tcgetattr, installs new raw settings with tcsetattr, and returns
the settings that were read.  The installed settings are supplied as
the oracle argument next, because the source builds them by modifying a
struct termios that was never filled in. -/
def setRawModeWithMin (next : Nat) (s : ConsoleState) : Nat × ConsoleState :=
  (s.fdSettings, { s with fdSettings := next })

/-- Console::setRaw (part_000 lines 325 to 331): call setRawModeWithMin,
push the pair (returned old settings, mode before the call) onto
modeStack, then set mode to raw. -/
def setRaw (next : Nat) (s : ConsoleState) : ConsoleState :=
  let r := setRawModeWithMin next s
  { r.2 with modeStack := (r.1, r.2.mode) :: r.2.modeStack, mode := ConsoleMode.raw }

/-- Console::popTermMode (part_000 lines 294 to 300): reinstall the
termios settings at the top of modeStack with tcsetattr, restore mode
from the top pair, and pop the stack.  On an empty stack the source
calls top() of an empty std::stack, which has no defined behaviour;
that case is none. -/
def popTermMode (s : ConsoleState) : Option ConsoleState :=
  match s.modeStack with
  | [] => none
  | top :: rest => some { fdSettings := top.1, mode := top.2, modeStack := rest }

/- ===================================================================
   Part 4: the TableTest harness of src/unnamed/part_001
   =================================================================== -/

/-- One row of a TableTest table: the TestDescription tuple
std::tuple< std::string, args_type, return_type > of part_001
line 358. -/
structure TestCase (α β : Type) where
  comment : String
  params : α
  expected : β

/-- Model of TableTest::Cases::operator() (part_001 lines 366 to 386):
starting from failureCount = 0, walk the test list in order; for each
case compute witness = std::apply( function, params ) and increment
failureCount when witness differs from the expected value; return
failureCount (an int, modelled as Int).  The argument pack is bundled
into the single value params, matching the args_type tuple of the
source. -/
def casesRun {α β : Type} [DecidableEq β] (f : α → β) (tests : List (TestCase α β)) : Int :=
  tests.foldl (fun failureCount tc => if f tc.params ≠ tc.expected then failureCount + 1 else failureCount) 0

/- ===================================================================
   Theorems
   =================================================================== -/

/-- Helper: the failure-count fold of casesRun, started from any value,
adds the number of failing cases to that value. -/
theorem casesRun_foldl_eq {α β : Type} [DecidableEq β] (f : α → β)
    (tests : List (TestCase α β)) (init : Int) :
    tests.foldl (fun failureCount tc => if f tc.params ≠ tc.expected then failureCount + 1 else failureCount) init
      = init + (tests.countP (fun tc => decide (f tc.params ≠ tc.expected)) : Int) := by
  induction tests generalizing init with
  | nil => simp
  | cons hd tl ih =>
      simp only [List.foldl_cons, List.countP_cons, ih]
      by_cases h : f hd.params = hd.expected
      · simp [h]
      · simp [h]
        ring

/-- C1: the specification states that parseRange on "3-7" returns the
vector [3, 4, 5, 6, 7].  The code instead returns [3]: line 93 of
string_algorithms.h reads high from tokens.at( 0 ) rather than
tokens.at( 1 ), and the braced declaration of rv builds a one-element
vector rather than one of size high - low + 1, so std::iota fills a
single slot with low.  This theorem evaluates the embedded code at the
failing input and contrasts it with the value the spec demands. -/
theorem parseRange_three_seven_returns_singleton :
    parseRange "3-7" = .ok [3] ∧
    specRange 3 7 = [3, 4, 5, 6, 7] ∧
    parseRange "3-7" ≠ .ok (specRange 3 7) := by
  refine ⟨rfl, rfl, ?_⟩
  intro h
  rw [show parseRange "3-7" = Except.ok [3] from rfl,
      show specRange 3 7 = [3, 4, 5, 6, 7] from rfl] at h
  injection h with h
  exact absurd h (by decide)

/-- C2 counterexample: the claim says an object of grade CriticalError
or Violation answers is_a< Error >() true.  In Exception.h both of
these grades derive only from Exception (lines 239 and 266), not from
Error, so the test is false at these concrete objects. -/
theorem criticalError_violation_isA_error_cex :
    isA (.tagged .criticalError 0) (.grade .error) = false ∧
    isA (.tagged .violation 0) (.grade .error) = false := by
  decide

/-- C2 amended: for every object of grade CriticalError or Violation
(plain, any-tagged or tagged), is_a< Error >() returns false -- the
grades are sibling classes each deriving only from Exception, not
ordinally nested -- while is_a< Exception >() returns true. -/
theorem higher_grades_not_isA_error (g : GradeName) (t : Nat)
    (h : g = .criticalError ∨ g = .violation) :
    isA (.grade g) (.grade .error) = false ∧
    isA (.anyTagged g) (.grade .error) = false ∧
    isA (.tagged g t) (.grade .error) = false ∧
    isA (.tagged g t) (.grade .exception) = true := by
  rcases h with rfl | rfl <;>
    refine ⟨?_, ?_, ?_, ?_⟩ <;> simp [isA, isAFuel, directBases]

/-- C2 witness: the amended statement at grade CriticalError, tag 7. -/
theorem higher_grades_not_isA_error_witness :
    isA (.grade .criticalError) (.grade .error) = false ∧
    isA (.anyTagged .criticalError) (.grade .error) = false ∧
    isA (.tagged .criticalError 7) (.grade .error) = false ∧
    isA (.tagged .criticalError 7) (.grade .exception) = true :=
  higher_grades_not_isA_error .criticalError 7 (Or.inl rfl)

/-- C3: for every grade G among Condition, Notification, Error,
CriticalError, Violation and every tag T, one object of
G::tagged_type< T > answers all four queries true independently:
is_a< G >(), is_a< G::any_tagged_type >(),
is_a< Exception::tagged_type< T > >() and is_a< Exception >(). -/
theorem tagged_type_grade_and_tag_queries (g : GradeName) (t : Nat)
    (h : g ∈ [GradeName.condition, .notification, .error, .criticalError, .violation]) :
    isA (.tagged g t) (.grade g) = true ∧
    isA (.tagged g t) (.anyTagged g) = true ∧
    isA (.tagged g t) (.tagged .exception t) = true ∧
    isA (.tagged g t) (.grade .exception) = true := by
  simp only [List.mem_cons, List.mem_singleton, List.not_mem_nil, or_false] at h
  rcases h with rfl | rfl | rfl | rfl | rfl <;>
    refine ⟨?_, ?_, ?_, ?_⟩ <;> simp [isA, isAFuel, directBases]

/-- C3 witness: the statement at grade Condition, tag 5. -/
theorem tagged_type_grade_and_tag_queries_witness :
    isA (.tagged .condition 5) (.grade .condition) = true ∧
    isA (.tagged .condition 5) (.anyTagged .condition) = true ∧
    isA (.tagged .condition 5) (.tagged .exception 5) = true ∧
    isA (.tagged .condition 5) (.grade .exception) = true :=
  tagged_type_grade_and_tag_queries .condition 5 (by decide)

/-- C4: TableTest::Cases::operator() applies the function to each
listed case in order and returns the number of cases whose computed
result differs from the expected output; in particular it returns 0
exactly when every case passes. -/
theorem casesRun_counts_failing_cases {α β : Type} [DecidableEq β]
    (f : α → β) (tests : List (TestCase α β)) :
    casesRun f tests = (tests.countP (fun tc => decide (f tc.params ≠ tc.expected)) : Int) ∧
    (casesRun f tests = 0 ↔ ∀ tc ∈ tests, f tc.params = tc.expected) := by
  have hc : casesRun f tests
      = (tests.countP (fun tc => decide (f tc.params ≠ tc.expected)) : Int) := by
    simpa [casesRun] using casesRun_foldl_eq f tests 0
  refine ⟨hc, ?_⟩
  rw [hc]
  simp [List.countP_eq_zero]

/-- C5: the single type Tagged< Grade, tag > = Grade::tagged_type< tag >
suffices for every (grade, tag) pair: one object of it is testable as
the plain grade, as AnyTagged of that grade, as TaggedException of that
tag, as AnyTaggedException, and as Exception. -/
theorem tagged_type_single_representation (g : GradeName) (t : Nat) :
    isA (.tagged g t) (.grade g) = true ∧
    isA (.tagged g t) (.anyTagged g) = true ∧
    isA (.tagged g t) (.tagged .exception t) = true ∧
    isA (.tagged g t) (.anyTagged .exception) = true ∧
    isA (.tagged g t) (.grade .exception) = true := by
  cases g <;> refine ⟨?_, ?_, ?_, ?_, ?_⟩ <;> simp [isA, isAFuel, directBases]

/-- C6: every class of the lattice -- each grade and each tagged or
any-tagged variant -- derives from Exception, so is_a< Exception >()
is true for every object in the system. -/
theorem lattice_isA_exception (c : Cls) : isA c (.grade .exception) = true := by
  rcases c with g | g | ⟨g, t⟩ <;> cases g <;> simp [isA, isAFuel, directBases]

/-- C7: tag() on an object of G::tagged_type< T > is determined by T
alone -- equal across grades for the same tag, distinct for distinct
tags -- because the one final override in Exception::tagged_type< T >
returns typeid( std::type_identity< T > ). -/
theorem tag_determined_by_tag_only (g g' : GradeName) (t t' : Nat) :
    tagMethod (.tagged g t) = tagMethod (.tagged g' t') ↔ t = t' := by
  simp [tagMethod]

/-- C8: Console::getScreenSize never propagates an exception: every
UnknownScreenError raised in the body is caught and replaced by the
fallback { 24, 80 }; in particular the fallback is returned when the
descriptor is not a tty, when the ioctl fails, and when the reported
column count is zero, and otherwise the ioctl row and column counts
are returned. -/
theorem getScreenSize_fallback_behaviour (t : TtyState) :
    (∀ e, getScreenSizeBody t = .error e → getScreenSize t = ⟨24, 80⟩) ∧
    (t.isTty = false → getScreenSize t = ⟨24, 80⟩) ∧
    (t.winSize = none → getScreenSize t = ⟨24, 80⟩) ∧
    (∀ ws, t.winSize = some ws → ws.columns = 0 → getScreenSize t = ⟨24, 80⟩) ∧
    (∀ ws, t.winSize = some ws → t.isTty = true → ws.columns ≠ 0 → getScreenSize t = ws) := by
  obtain ⟨tty, win⟩ := t
  refine ⟨?_, ?_, ?_, ?_, ?_⟩
  · intro e he
    simp [getScreenSize, he]
  · rintro rfl
    simp [getScreenSize, getScreenSizeBody]
  · rintro rfl
    cases tty <;> simp [getScreenSize, getScreenSizeBody]
  · rintro ws rfl hcol
    cases tty <;> simp [getScreenSize, getScreenSizeBody, hcol]
  · rintro ws rfl rfl hcol
    simp [getScreenSize, getScreenSizeBody, hcol]

/-- C8 witness: the fallback at a non-tty descriptor, and the reported
size 42 by 100 at a healthy tty. -/
theorem getScreenSize_fallback_behaviour_witness :
    getScreenSize ⟨false, none⟩ = ⟨24, 80⟩ ∧
    getScreenSize ⟨true, some ⟨42, 100⟩⟩ = ⟨42, 100⟩ :=
  ⟨(getScreenSize_fallback_behaviour ⟨false, none⟩).2.1 rfl,
   (getScreenSize_fallback_behaviour ⟨true, some ⟨42, 100⟩⟩).2.2.2.2 ⟨42, 100⟩ rfl rfl (by decide)⟩

/-- C9: parseRange raises the std::runtime_error
"Expected an integer or a range." exactly when splitting the input on
the dash yields zero tokens or more than two tokens; on every other
input that error branch is not taken (any other failure is a
bad_lexical_cast, a different exception). -/
theorem parseRange_error_iff_token_count (s : String) :
    parseRange s = .error .rangeFormat ↔
      ((split s '-').length = 0 ∨ (split s '-').length > 2) := by
  rcases htok : split s '-' with _ | ⟨a, _ | ⟨b, _ | ⟨c, rest⟩⟩⟩
  · simp [parseRange, htok]
  · simp only [parseRange, htok, List.length_cons, List.length_nil]
    norm_num
    rcases lexicalCast s with _ | v <;> simp
  · by_cases ha : a.isEmpty
    · simp only [parseRange, htok, List.length_cons, List.length_nil, List.getD_cons_zero, ha]
      norm_num
      rcases lexicalCast s with _ | v <;> simp
    · simp only [parseRange, htok, List.length_cons, List.length_nil, List.getD_cons_zero, ha]
      norm_num
      rcases lexicalCast a with _ | v <;> simp
  · simp [parseRange, htok]

/-- C10: from any console state, setRaw pushes the pair (settings read
by tcgetattr, mode before the call) onto the mode stack and switches
the mode to raw; popTermMode then reinstalls that termios value,
restores the mode, and pops -- so getMode observes exactly the mode it
had before setRaw, and the whole state round-trips. -/
theorem setRaw_popTermMode_restores_mode (s : ConsoleState) (next : Nat) :
    (setRaw next s).modeStack = (s.fdSettings, s.mode) :: s.modeStack ∧
    (setRaw next s).mode = ConsoleMode.raw ∧
    popTermMode (setRaw next s) = some s ∧
    (popTermMode (setRaw next s)).map getMode = some (getMode s) := by
  exact ⟨rfl, rfl, rfl, rfl⟩

end Alepha
